import Mathlib

/-!
Shallow embedding of the hybrid persistence and retrieval engine of
`src/backend.py` (class `ComplexPlasmaRAG`): the quality gate
`_is_valid_physics_data`, the embedding wrapper `get_embedding`, the atomic
index save `_safe_save_index`, the ingestion coordinator `update_vector_db`
and the retrieval join `search_knowledge`.

Modelling conventions:
* Python dict keys accessed with `.get(k, default)` become `Option` fields
  read with `getD`; keys indexed directly (`d['metadata']['title']`) become
  required fields.
* JSON serialisation (`json.dumps` / `json.loads`) is modelled as the
  identity: a table column that stores a serialised payload stores the
  structured value itself.
* External collaborators are parameters of the model: the embedding service
  is a function `String → List Int` (vector components are opaque scalars —
  no arithmetic of the engine depends on their values), and `hashlib.md5(
  ...).hexdigest()` is an arbitrary function `String → String`.
* numpy arrays are modelled by their dtype tag, shape and entries; the
  `astype('float32')` cast is recorded in the dtype tag.
* Failure injection: whether `portalocker.Lock` acquires within its timeout
  and whether each `faiss.write_index`/`os.replace` pair succeeds are Boolean
  fields of the environment.
* SQLite row ids: both tables are `INTEGER PRIMARY KEY AUTOINCREMENT`; the
  model carries the next-id counter, and a rollback restores it together
  with the rows (sqlite_sequence updates are transactional).
-/

namespace PlasmaRAG

/-- Python substring containment (`needle in hay`) on character lists:
`listHasPrefix n h` is `n` being a prefix of `h`. -/
def listHasPrefix : List Char → List Char → Bool
  | [], _ => true
  | _ :: _, [] => false
  | a :: as, b :: bs => a = b && listHasPrefix as bs

/-- `listHasSub n h`: `n` occurs as a contiguous sublist of `h`. -/
def listHasSub (needle : List Char) : List Char → Bool
  | [] => listHasPrefix needle []
  | c :: cs => listHasPrefix needle (c :: cs) || listHasSub needle cs

/-- Python `needle in hay` for strings (with a non-empty needle). -/
def strContains (hay needle : String) : Bool :=
  listHasSub needle.toList hay.toList

/-- ASCII whitespace as recognised by Python `str.strip()` (the engine only
ever strips ASCII text; further Unicode space classes are irrelevant here). -/
def isPySpace (c : Char) : Bool :=
  c = ' ' || c = '\t' || c = '\n' || c = '\r' || c = '\x0b' || c = '\x0c'

/-- Python `not text.strip()`: every character is whitespace. -/
def stripIsEmpty (s : String) : Bool :=
  s.toList.all isPySpace

/-- Python truthiness of an optional string (`not text` is its negation):
`None` and `""` are falsy. -/
def pyTruthy : Option String → Bool
  | none => false
  | some s => s ≠ ""

/-- Python `text.replace("\n", " ")` (single-character pattern, so a map). -/
def replaceNewlines (s : String) : String :=
  ⟨s.toList.map fun c => if c = '\n' then ' ' else c⟩

/-! ## Structured record payload (the JSON schema of `extract_paper_structure`) -/

/-- `metadata` object. `title` is indexed directly by `update_vector_db`
(`structured_data['metadata']['title']`), hence required; `innovation` is
read with `.get('innovation', "None")`. -/
structure Metadata where
  title : String
  journal : String
  year : String
  innovation : Option String
  deriving DecidableEq, Repr

/-- `physics_context` object; both keys are read with `.get`. -/
structure PhysicsContext where
  environment : Option String
  detailed_background : Option String
  deriving DecidableEq, Repr

/-- One entry of `parameters` (only its presence matters to the core). -/
structure Parameter where
  name : String
  symbol : String
  value : String
  unit : String
  meaning : String
  enriched_physics : String
  source : String
  deriving DecidableEq, Repr

/-- One entry of `force_fields`. `formula` is read with
`.get('formula', 'unknown_formula')`; `name` and `physical_significance`
are indexed directly. -/
structure ForceField where
  name : String
  formula : Option String
  physical_significance : String
  computational_hint : String
  deriving DecidableEq, Repr

/-- One entry of `figures` as consumed by `update_vector_db`
(`fig.get("image_path")`, `fig.get("caption")`, `fig.get("page")`). -/
structure Figure where
  fid : String
  caption : String
  page : Nat
  linked_parameters : List String
  image_path : String
  deriving DecidableEq, Repr

/-- The structured record handed to `update_vector_db`. Optional fields
model dict keys whose presence is tested (`"figures" in structured_data`,
`"force_fields" in structured_data`) or read with `.get`. Payload fields the
persistence core never consults (keywords, phenomena descriptions, …) are
not separated out; they travel inside the stored value unchanged. -/
structure StructuredData where
  metadata : Metadata
  physics_context : Option PhysicsContext
  parameters : Option (List Parameter)
  force_fields : Option (List ForceField)
  figures : Option (List Figure)
  deriving DecidableEq, Repr

/-! ## Metadata store rows and state -/

/-- A row of the `papers` table. `metadata_json` stores
`json.dumps(structured_data)`, modelled as the structured value itself. -/
structure PaperRow where
  id : Nat
  title : String
  metadata_json : StructuredData
  vector_id : Int
  deriving DecidableEq, Repr

/-- A row of the `force_fields` table. -/
structure ForceRow where
  id : Nat
  formula_hash : String
  force_json : ForceField
  source_paper : String
  vector_id : Int
  deriving DecidableEq, Repr

/-- A row of the `figures` table; `figure_vector_id` is never set by the
ingest path (the INSERT names only the other columns), so it is `none`. -/
structure FigureRow where
  id : Nat
  paper_id : Nat
  image_path : String
  caption : String
  page_num : Nat
  figure_vector_id : Option Int
  deriving DecidableEq, Repr

/-- The SQLite database: three tables plus the AUTOINCREMENT counters. -/
structure DB where
  papers : List PaperRow
  force_fields : List ForceRow
  figures : List FigureRow
  paper_seq : Nat
  force_seq : Nat
  figure_seq : Nat
  deriving DecidableEq, Repr

/-- An `IndexIDMap` FAISS index: entries keyed by an externally supplied
64-bit id (modelled as `Int`), in insertion order. -/
abbrev FaissIndex : Type := List (Int × List Int)

/-- Whole persistent state of one process: the database, the two in-memory
indexes, and the two index files on disk (content last atomically saved). -/
structure RagState where
  db : DB
  paper_index : FaissIndex
  force_index : FaissIndex
  paper_file : FaissIndex
  force_file : FaissIndex
  deriving DecidableEq

/-- External collaborators and failure injection for one ingest call. -/
structure Env where
  /-- the embedding collaborator behind `client.embeddings.create`. -/
  embed : String → List Int
  /-- `hashlib.md5(·.encode()).hexdigest()`, kept abstract. -/
  md5hex : String → String
  /-- `portalocker.Lock(lock_path, timeout=10)` acquires in time. -/
  lock_ok : Bool
  /-- the paper-index `faiss.write_index` + `os.replace` succeeds. -/
  save_paper_ok : Bool
  /-- the force-index `faiss.write_index` + `os.replace` succeeds. -/
  save_force_ok : Bool

/-! ## `get_embedding` -/

/-- A numpy array as the engine sees it: dtype tag, shape, flat entries. -/
structure NpArray where
  dtype : String
  rows : Nat
  cols : Nat
  entries : List Int
  deriving DecidableEq, Repr

/-- The store-wide vector dimension (`self.dimension = 1536`). -/
def dimension : Nat := 1536

/-- `get_embedding(text)`: substitute `"empty_input_placeholder"` for a
falsy or whitespace-only input, replace newlines by spaces, call the
embedding collaborator, return the vector as float32 reshaped to `(1, -1)`.
Also returns the text actually sent to the collaborator (second component),
so that theorems can speak about the call that was made. -/
def get_embedding (svc : String → List Int) (text0 : Option String) :
    NpArray × String :=
  let text :=
    if !pyTruthy text0 || stripIsEmpty (text0.getD "") then
      "empty_input_placeholder"
    else text0.getD ""
  let sent := replaceNewlines text
  let v := svc sent
  ({ dtype := "float32", rows := 1, cols := v.length, entries := v }, sent)

/-! ## `_is_valid_physics_data` -/

/-- The quality gate. Mirrors the source checks in order: title empty /
contains `"解析失败"` / equals `"Unknown"`; then both `parameters` and
`force_fields` empty; then both `innovation` and `detailed_background`
at a default placeholder (`"None"` or `"Unknown"`). The source's
`if not data: return False` can never fire for a record that has a
metadata object, so it has no counterpart here. -/
def is_valid_physics_data (d : StructuredData) : Bool :=
  if d.metadata.title = "" || strContains d.metadata.title "解析失败" ||
      d.metadata.title = "Unknown" then
    false
  else if (d.parameters.getD []).isEmpty &&
      (d.force_fields.getD []).isEmpty then
    false
  else if (d.metadata.innovation.getD "None" = "None" ||
        d.metadata.innovation.getD "None" = "Unknown") &&
      ((d.physics_context.bind (·.detailed_background)).getD "None" = "None" ||
        (d.physics_context.bind (·.detailed_background)).getD "None" = "Unknown") then
    false
  else
    true

/-! ## `_safe_save_index` -/

/-- One index file location: the live path and the optional `.tmp` file. -/
structure IdxFile where
  live : FaissIndex
  tmp : Option FaissIndex
  deriving DecidableEq

/-- `_safe_save_index(index, path)`: write the index to `path + ".tmp"`,
then `os.replace` it over the live path (atomic, consumes the temp file).
On any failure the temp file is removed and `IOError` is raised (`false`
in the second component means the call raised). -/
def safe_save_index (writeOk : Bool) (index : FaissIndex) (f : IdxFile) :
    IdxFile × Bool :=
  if writeOk then
    ({ live := index, tmp := none }, true)
  else
    ({ live := f.live, tmp := none }, false)

/-! ## `update_vector_db`: the ingestion coordinator -/

/-- Observable side-effect trace of one ingest call (lock, row inserts,
`add_with_ids` calls, vector-id backfills, index saves, commit/rollback). -/
inductive Ev where
  | lockAcquired
  | insertPaper (id : Nat) (vid : Int)
  | addPaperVec (id : Nat)
  | backfillPaper (id : Nat) (vid : Int)
  | savePaperIndex (ok : Bool)
  | insertFigure (id : Nat) (paper_id : Nat)
  | forceDupSkip (hash : String)
  | insertForce (id : Nat) (vid : Int)
  | addForceVec (id : Nat)
  | backfillForce (id : Nat) (vid : Int)
  | saveForceIndex (ok : Bool)
  | commit
  | rollback
  | lockReleased
  deriving DecidableEq, Repr

/-- Which path the call took (what the except-handlers / prints record). -/
inductive Outcome where
  /-- validation failed: printed `数据质量未达标` and returned. -/
  | skippedInvalid
  /-- duplicate title: printed `跳过已存在论文` and returned. -/
  | skippedDuplicate
  /-- the transaction committed: the record was stored. -/
  | stored
  /-- `portalocker.exceptions.LockException` was caught and printed. -/
  | errLock
  /-- a generic `Exception` was caught and printed (here: the `IOError`
  raised by `_safe_save_index`; the tag names the failing save). -/
  | errCaught (tag : String)
  deriving DecidableEq, Repr

/-- Result of a call to `update_vector_db`. `ret` is the Python return
value: every `return` in the source is bare and the function body falls off
the end, so the caller always receives `None`. -/
structure IngestResult where
  outcome : Outcome
  state : RagState
  trace : List Ev
  ret : Option Unit
  deriving DecidableEq

/-- The environment string used for the force-field fingerprint:
`structured_data.get('physics_context', {}).get('environment', 'unknown_env')`. -/
def envValue (d : StructuredData) : String :=
  (d.physics_context.bind (·.environment)).getD "unknown_env"

/-- The text embedded for a paper:
`f"Title: {title}. Context: {background}"` where the background is
`structured_data.get('physics_context', {}).get('detailed_background', 'No background available')`. -/
def paper_embed_input (d : StructuredData) : String :=
  "Title: " ++ d.metadata.title ++ ". Context: " ++
    (d.physics_context.bind (·.detailed_background)).getD
      "No background available"

/-- The fingerprint of a force field owned by record `d`:
`hashlib.md5((ff.get('formula', 'unknown_formula') + env_val).encode()).hexdigest()`. -/
def force_fingerprint (md5hex : String → String) (d : StructuredData)
    (ff : ForceField) : String :=
  md5hex (ff.formula.getD "unknown_formula" ++ envValue d)

/-- `UPDATE force_fields SET vector_id = K WHERE id = K` on the table rows
(source lines 760-761). -/
def backfillForceRows (K : Nat) (rows : List ForceRow) : List ForceRow :=
  rows.map fun r =>
    if r.id = K then { r with vector_id := (K : Int) } else r

/-- `UPDATE papers SET vector_id = K WHERE id = K` on the table rows
(source lines 700-701). -/
def backfillPaperRows (K : Nat) (rows : List PaperRow) : List PaperRow :=
  rows.map fun r =>
    if r.id = K then { r with vector_id := (K : Int) } else r

/-- Accumulator of the force-field loop: the `force_fields` table rows and
AUTOINCREMENT counter as the open transaction sees them, the in-memory
force index, and the emitted events. -/
structure FFAcc where
  rows : List ForceRow
  seq : Nat
  fidx : FaissIndex
  evs : List Ev
  deriving DecidableEq

/-- The text embedded for a force field:
`f"Interparticle Interaction: {ff['name']}. Significance: {ff['physical_significance']}"`. -/
def force_embed_input (ff : ForceField) : String :=
  "Interparticle Interaction: " ++ ff.name ++ ". Significance: " ++
    ff.physical_significance

/-- One iteration of the force-field loop of `update_vector_db`: fingerprint
the sub-record; if the fingerprint already has a row, `continue`; otherwise
insert the row with sentinel `-1`, embed, `add_with_ids` under the fresh
row id, and backfill `vector_id`. -/
def processForce (env : Env) (title : String) (d : StructuredData)
    (acc : FFAcc) (ff : ForceField) : FFAcc :=
  let f_hash := force_fingerprint env.md5hex d ff
  if acc.rows.any (·.formula_hash = f_hash) then
    { acc with evs := acc.evs ++ [Ev.forceDupSkip f_hash] }
  else
    let force_vec := (get_embedding env.embed (some (force_embed_input ff))).1
    let db_force_id := acc.seq
    let row : ForceRow :=
      { id := db_force_id, formula_hash := f_hash, force_json := ff,
        source_paper := title, vector_id := -1 }
    let rows1 := acc.rows ++ [row]
    let fidx1 : FaissIndex := acc.fidx ++ [((db_force_id : Int), force_vec.entries)]
    let rows2 := backfillForceRows db_force_id rows1
    { rows := rows2, seq := db_force_id + 1, fidx := fidx1,
      evs := acc.evs ++
        [Ev.insertForce db_force_id (-1), Ev.addForceVec db_force_id,
         Ev.backfillForce db_force_id (db_force_id : Int)] }

/-- One iteration of the figures loop: the figure row is inserted with the
record's primary key as foreign key; no vector is written
(`figure_vector_id` stays NULL). -/
def processFigure (pid : Nat) (acc : List FigureRow × Nat × List Ev)
    (fig : Figure) : List FigureRow × Nat × List Ev :=
  let fid := acc.2.1
  let row : FigureRow :=
    { id := fid, paper_id := pid, image_path := fig.image_path,
      caption := fig.caption, page_num := fig.page,
      figure_vector_id := none }
  (acc.1 ++ [row], fid + 1, acc.2.2 ++ [Ev.insertFigure fid pid])

/-- The figures loop of `update_vector_db`. -/
def processFigures (pid : Nat) (figs : List Figure)
    (acc : List FigureRow × Nat × List Ev) : List FigureRow × Nat × List Ev :=
  figs.foldl (processFigure pid) acc

/-- The body of the `try` block once the lock is held and the title is not a
duplicate (source lines 674–766): embed the paper text, insert the paper row
with sentinel `-1`, `add_with_ids` under the fresh primary key, backfill
`vector_id`, atomically save the paper index, insert the figure rows, run
the force-field loop, atomically save the force index, and commit. A failed
save raises `IOError`, which rolls the transaction back (the database
returns to its pre-call state, AUTOINCREMENT counters included) but leaves
the in-memory indexes — and, for the force save, the already-replaced paper
index file — as they are; the generic handler prints the error. -/
def ingest_stored_path (env : Env) (st : RagState) (d : StructuredData) :
    IngestResult :=
  let title := d.metadata.title
  let paper_vec := (get_embedding env.embed (some (paper_embed_input d))).1
  let paper_row_id := st.db.paper_seq
  let row : PaperRow :=
    { id := paper_row_id, title := title, metadata_json := d, vector_id := -1 }
  let db1 : DB :=
    { st.db with papers := st.db.papers ++ [row],
                 paper_seq := paper_row_id + 1 }
  let pidx1 : FaissIndex :=
    st.paper_index ++ [((paper_row_id : Int), paper_vec.entries)]
  let db2 : DB :=
    { db1 with papers := backfillPaperRows paper_row_id db1.papers }
  let evs0 : List Ev :=
    [Ev.lockAcquired, Ev.insertPaper paper_row_id (-1),
     Ev.addPaperVec paper_row_id,
     Ev.backfillPaper paper_row_id (paper_row_id : Int)]
  let saveP := safe_save_index env.save_paper_ok pidx1
    { live := st.paper_file, tmp := none }
  if !saveP.2 then
    -- `_safe_save_index` raised: rollback, paper file untouched, in-memory
    -- paper index keeps the added vector.
    { outcome := Outcome.errCaught "save_paper_index",
      state := { st with paper_index := pidx1, paper_file := saveP.1.live },
      trace := evs0 ++ [Ev.savePaperIndex false, Ev.rollback, Ev.lockReleased],
      ret := none }
  else
    let evs1 := evs0 ++ [Ev.savePaperIndex true]
    -- figures block (only if the key is present)
    let figAcc :=
      match d.figures with
      | none => (db2.figures, db2.figure_seq, evs1)
      | some figs => processFigures paper_row_id figs (db2.figures, db2.figure_seq, evs1)
    let db3 : DB := { db2 with figures := figAcc.1, figure_seq := figAcc.2.1 }
    let evs2 := figAcc.2.2
    -- force-field block (only if the key is present)
    match d.force_fields with
    | none =>
        { outcome := Outcome.stored,
          state := { db := db3, paper_index := pidx1, force_index := st.force_index,
                     paper_file := saveP.1.live, force_file := st.force_file },
          trace := evs2 ++ [Ev.commit, Ev.lockReleased],
          ret := none }
    | some ffs =>
        let acc : FFAcc :=
          { rows := db3.force_fields, seq := db3.force_seq,
            fidx := st.force_index, evs := evs2 }
        let acc1 := ffs.foldl (processForce env title d) acc
        let db4 : DB := { db3 with force_fields := acc1.rows, force_seq := acc1.seq }
        let saveF := safe_save_index env.save_force_ok acc1.fidx
          { live := st.force_file, tmp := none }
        if !saveF.2 then
          { outcome := Outcome.errCaught "save_force_index",
            state := { st with paper_index := pidx1, force_index := acc1.fidx,
                               paper_file := saveP.1.live,
                               force_file := saveF.1.live },
            trace := acc1.evs ++
              [Ev.saveForceIndex false, Ev.rollback, Ev.lockReleased],
            ret := none }
        else
          { outcome := Outcome.stored,
            state := { db := db4, paper_index := pidx1, force_index := acc1.fidx,
                       paper_file := saveP.1.live, force_file := saveF.1.live },
            trace := acc1.evs ++
              [Ev.saveForceIndex true, Ev.commit, Ev.lockReleased],
            ret := none }

/-- `update_vector_db(structured_data)`: quality gate, cross-process lock,
duplicate check, synchronized dual write. All exceptions are caught inside
the function (`except LockException` / `except Exception` print a message);
the caller always receives `None`. -/
def update_vector_db (env : Env) (st : RagState) (d : StructuredData) :
    IngestResult :=
  if !is_valid_physics_data d then
    { outcome := Outcome.skippedInvalid, state := st, trace := [], ret := none }
  else if !env.lock_ok then
    { outcome := Outcome.errLock, state := st, trace := [], ret := none }
  else if st.db.papers.any (·.title = d.metadata.title) then
    -- duplicate: `return` inside the `with` blocks commits the (empty)
    -- transaction and releases the lock; nothing changes.
    { outcome := Outcome.skippedDuplicate, state := st,
      trace := [Ev.lockAcquired, Ev.lockReleased], ret := none }
  else
    ingest_stored_path env st d

/-! ## `search_knowledge`: the retrieval join -/

/-- One iteration of the papers half of the join loop: skip the `-1`
sentinel, otherwise `SELECT metadata_json FROM papers WHERE vector_id = ?`
and append the payload of the first matching row, if any. -/
def join_paper_step (papers : List PaperRow) (acc : List StructuredData)
    (v_id : Int) : List StructuredData :=
  if v_id = -1 then acc
  else
    match papers.find? (·.vector_id = v_id) with
    | some r => acc ++ [r.metadata_json]
    | none => acc

/-- The papers half of the join loop of `search_knowledge`. -/
def join_papers (papers : List PaperRow) (ids : List Int) :
    List StructuredData :=
  ids.foldl (join_paper_step papers) []

/-- One iteration of the forces half of the join loop: same shape,
returning the force payload paired with its `source_paper` (attached as
`source_from`). -/
def join_force_step (forces : List ForceRow) (acc : List (ForceField × String))
    (v_id : Int) : List (ForceField × String) :=
  if v_id = -1 then acc
  else
    match forces.find? (·.vector_id = v_id) with
    | some r => acc ++ [(r.force_json, r.source_paper)]
    | none => acc

/-- The forces half of the join loop of `search_knowledge`. -/
def join_forces (forces : List ForceRow) (ids : List Int) :
    List (ForceField × String) :=
  ids.foldl (join_force_step forces) []

/-- `search_knowledge(query_text, top_k)`: embed the query, search both
FAISS indexes, and join the id lists back against SQLite. The FAISS
k-nearest-neighbour search itself is the external library; it is passed in
as `faissSearch index queryVector top_k = list of ids in ascending distance
order, padded with -1`. -/
def search_knowledge
    (faissSearch : FaissIndex → NpArray → Nat → List Int)
    (env : Env) (st : RagState) (query_text : String) (top_k : Nat) :
    List StructuredData × List (ForceField × String) :=
  let query_vector := (get_embedding env.embed (some query_text)).1
  let I1 := faissSearch st.paper_index query_vector top_k
  let I2 := faissSearch st.force_index query_vector top_k
  (join_papers st.db.papers I1, join_forces st.db.force_fields I2)

/-! ## Concrete instances used to evaluate the model -/

/-- A concrete embedding collaborator: every text maps to a 2-vector. -/
def svc0 : String → List Int := fun _ => [7, 7]

/-- A concrete stand-in for the md5 hex digest (injective on the inputs the
scenarios use, as md5 hex digests are in practice). -/
def md5id : String → String := fun s => s

/-- All-success environment. -/
def env0 : Env :=
  { embed := svc0, md5hex := md5id, lock_ok := true,
    save_paper_ok := true, save_force_ok := true }

/-- Environment whose lock acquisition times out. -/
def envLockFail : Env := { env0 with lock_ok := false }

/-- Environment whose force-index save fails. -/
def envForceSaveFail : Env := { env0 with save_force_ok := false }

/-- The empty store (fresh database, empty indexes and files). -/
def st0 : RagState :=
  { db := { papers := [], force_fields := [], figures := [],
            paper_seq := 1, force_seq := 1, figure_seq := 1 },
    paper_index := [], force_index := [], paper_file := [], force_file := [] }

/-- A concrete force field. -/
def sampleForce : ForceField :=
  { name := "Yukawa", formula := some "F1",
    physical_significance := "screened Coulomb", computational_hint := "hint" }

/-- A concrete figure. -/
def sampleFigure : Figure :=
  { fid := "page-1", caption := "cap", page := 1, linked_parameters := [],
    image_path := "figures/p1.png" }

/-- A concrete record that passes the quality gate, with one force field
and one figure. -/
def sampleData : StructuredData :=
  { metadata := { title := "X", journal := "J", year := "2020",
                  innovation := some "new idea" },
    physics_context := some { environment := some "rf discharge",
                              detailed_background := some "bg" },
    parameters := some [],
    force_fields := some [sampleForce],
    figures := some [sampleFigure] }

/-- A record that fails the quality gate (empty title, nothing extracted). -/
def invalidData : StructuredData :=
  { metadata := { title := "", journal := "Unknown", year := "Unknown",
                  innovation := some "None" },
    physics_context := none, parameters := none, force_fields := none,
    figures := none }

/-- The store after ingesting `sampleData` into the empty store. -/
def stWithX : RagState := (update_vector_db env0 st0 sampleData).state

/-- A second record: different title, same force field (and same
environment string), so its sub-record fingerprint collides with the one
stored by `sampleData`. -/
def sampleData2 : StructuredData :=
  { sampleData with
      metadata := { sampleData.metadata with title := "Y" } }

/-! ## Invariants -/

/-- Bounds linking the AUTOINCREMENT counters to the stored row ids (true
of every state reachable from an empty store; AUTOINCREMENT ids are never
reused). -/
def StoreWF (st : RagState) : Prop :=
  (∀ p ∈ st.db.papers, p.id < st.db.paper_seq) ∧
  (∀ f ∈ st.db.force_fields, f.id < st.db.force_seq)

/-- Durability invariant: each index file on disk holds a subset of the
corresponding in-memory index (the file is a snapshot of an earlier,
shorter in-memory state), and every committed non-sentinel `vector_id`
has an entry in the corresponding index file. -/
def Consistent (st : RagState) : Prop :=
  (∀ e ∈ st.paper_file, e ∈ st.paper_index) ∧
  (∀ e ∈ st.force_file, e ∈ st.force_index) ∧
  (∀ p ∈ st.db.papers, p.vector_id ≠ -1 →
    ∃ e ∈ st.paper_file, e.1 = p.vector_id) ∧
  (∀ f ∈ st.db.force_fields, f.vector_id ≠ -1 →
    ∃ e ∈ st.force_file, e.1 = f.vector_id)

/-- No two rows of the `force_fields` table share a `formula_hash`. -/
def hashesUnique : List ForceRow → Bool
  | [] => true
  | r :: rs => !(rs.any (·.formula_hash = r.formula_hash)) && hashesUnique rs

/-- Events emitted by the force-field loop. -/
def isForceEv : Ev → Bool
  | Ev.forceDupSkip _ => true
  | Ev.insertForce _ _ => true
  | Ev.addForceVec _ => true
  | Ev.backfillForce _ _ => true
  | _ => false

/-! # Theorems -/

/-! ## General helper lemmas -/

/-- A fold preserves any invariant its step preserves. -/
theorem foldl_pres {α β : Type _} (P : β → Prop) (f : β → α → β)
    (hstep : ∀ b a, P b → P (f b a)) :
    ∀ (l : List α) (b : β), P b → P (l.foldl f b)
  | [], _, hb => hb
  | a :: l, b, hb => foldl_pres P f hstep l (f b a) (hstep b a hb)

/-- Mapping a conditional update over a list none of whose elements
satisfies the condition is the identity. -/
theorem map_if_id {α : Type _} (l : List α) (q : α → Prop) [DecidablePred q]
    (f : α → α) (h : ∀ a ∈ l, ¬ q a) :
    (l.map fun a => if q a then f a else a) = l := by
  induction l with
  | nil => rfl
  | cons a t ih =>
    rw [List.map_cons, if_neg (h a (List.mem_cons_self a t)),
      ih fun x hx => h x (List.mem_cons_of_mem a hx)]

/-- The paper join loop, with its accumulator generalized, is a
`filterMap` over the sentinel-filtered id list. -/
theorem join_papers_go (papers : List PaperRow) (ids : List Int) :
    ∀ acc : List StructuredData,
      List.foldl (join_paper_step papers) acc ids =
        acc ++ (ids.filter (· ≠ -1)).filterMap
          (fun v => (papers.find? (·.vector_id = v)).map (·.metadata_json)) := by
  induction ids with
  | nil => intro acc; simp
  | cons v ids ih =>
    intro acc
    rw [List.foldl_cons, ih]
    by_cases hv : v = -1
    · subst hv
      simp [join_paper_step]
    · cases hf : papers.find? (·.vector_id = v) with
      | none => simp [join_paper_step, hv, hf]
      | some r => simp [join_paper_step, hv, hf]

/-- The force join loop, with its accumulator generalized. -/
theorem join_forces_go (forces : List ForceRow) (ids : List Int) :
    ∀ acc : List (ForceField × String),
      List.foldl (join_force_step forces) acc ids =
        acc ++ (ids.filter (· ≠ -1)).filterMap
          (fun v => (forces.find? (·.vector_id = v)).map
            (fun r => (r.force_json, r.source_paper))) := by
  induction ids with
  | nil => intro acc; simp
  | cons v ids ih =>
    intro acc
    rw [List.foldl_cons, ih]
    by_cases hv : v = -1
    · subst hv
      simp [join_force_step]
    · cases hf : forces.find? (·.vector_id = v) with
      | none => simp [join_force_step, hv, hf]
      | some r => simp [join_force_step, hv, hf]

/-! ## Quality gate (C3) and duplicate skip (C4) -/

/-- Any of the four rejection conditions forces the quality gate to
`false`. -/
theorem gate_false_of (d : StructuredData)
    (h :
      d.metadata.title = "" ∨
      strContains d.metadata.title "解析失败" = true ∨
      ((d.parameters.getD []).isEmpty = true ∧
        (d.force_fields.getD []).isEmpty = true) ∨
      ((d.metadata.innovation.getD "None" = "None" ∨
          d.metadata.innovation.getD "None" = "Unknown") ∧
        ((d.physics_context.bind (·.detailed_background)).getD "None" = "None" ∨
          (d.physics_context.bind (·.detailed_background)).getD "None" =
            "Unknown"))) :
    is_valid_physics_data d = false := by
  rcases h with h | h | ⟨h1, h2⟩ | ⟨h1, h2⟩
  · simp [is_valid_physics_data, h]
  · simp [is_valid_physics_data, h]
  · simp [is_valid_physics_data, h1, h2, ite_self]
  · simp [is_valid_physics_data, h1, h2, ite_self]

/-- C3: a record failing the quality gate — empty title, failure
placeholder in the title, both `parameters` and `force_fields` empty, or
both enrichment fields at their default placeholders — is rejected with
`skipped` before the lock is touched: the state is unchanged and the
side-effect trace is empty (no lock acquisition, no metadata-store
mutation, no vector-index mutation). -/
theorem C3_quality_gate_skip (env : Env) (st : RagState) (d : StructuredData)
    (h :
      d.metadata.title = "" ∨
      strContains d.metadata.title "解析失败" = true ∨
      ((d.parameters.getD []).isEmpty = true ∧
        (d.force_fields.getD []).isEmpty = true) ∨
      ((d.metadata.innovation.getD "None" = "None" ∨
          d.metadata.innovation.getD "None" = "Unknown") ∧
        ((d.physics_context.bind (·.detailed_background)).getD "None" = "None" ∨
          (d.physics_context.bind (·.detailed_background)).getD "None" =
            "Unknown"))) :
    is_valid_physics_data d = false ∧
    update_vector_db env st d =
      { outcome := Outcome.skippedInvalid, state := st, trace := [],
        ret := none } := by
  have hg := gate_false_of d h
  refine ⟨hg, ?_⟩
  unfold update_vector_db
  simp [hg]

/-- Witness for C3: the all-placeholder record is skipped on the empty
store with no side effects. -/
theorem C3_quality_gate_skip_witness :
    (invalidData.metadata.title = "" ∨
      strContains invalidData.metadata.title "解析失败" = true ∨
      ((invalidData.parameters.getD []).isEmpty = true ∧
        (invalidData.force_fields.getD []).isEmpty = true) ∨
      ((invalidData.metadata.innovation.getD "None" = "None" ∨
          invalidData.metadata.innovation.getD "None" = "Unknown") ∧
        ((invalidData.physics_context.bind
            (·.detailed_background)).getD "None" = "None" ∨
          (invalidData.physics_context.bind
            (·.detailed_background)).getD "None" = "Unknown"))) ∧
    (is_valid_physics_data invalidData = false ∧
      update_vector_db env0 st0 invalidData =
        { outcome := Outcome.skippedInvalid, state := st0, trace := [],
          ret := none }) :=
  ⟨Or.inl rfl, C3_quality_gate_skip env0 st0 invalidData (Or.inl rfl)⟩

/-- C4: an ingest whose title already exists in the `papers` table returns
`skipped(duplicate)` with the state unchanged — no new row in any of the
three tables, no vector added to either in-memory index, neither index
file rewritten — and the trace shows the lock acquired and released. -/
theorem C4_duplicate_noop (env : Env) (st : RagState) (d : StructuredData)
    (hvalid : is_valid_physics_data d = true)
    (hlock : env.lock_ok = true)
    (hdup : st.db.papers.any (·.title = d.metadata.title) = true) :
    update_vector_db env st d =
      { outcome := Outcome.skippedDuplicate, state := st,
        trace := [Ev.lockAcquired, Ev.lockReleased], ret := none } := by
  unfold update_vector_db
  simp [hvalid, hlock, hdup]

/-- Witness for C4: re-ingesting the title `"X"` into the store that
already holds it changes nothing. -/
theorem C4_duplicate_noop_witness :
    (is_valid_physics_data sampleData = true ∧ env0.lock_ok = true ∧
      stWithX.db.papers.any (·.title = sampleData.metadata.title) = true) ∧
    update_vector_db env0 stWithX sampleData =
      { outcome := Outcome.skippedDuplicate, state := stWithX,
        trace := [Ev.lockAcquired, Ev.lockReleased], ret := none } :=
  ⟨⟨by decide, rfl, by decide⟩,
   C4_duplicate_noop env0 stWithX sampleData (by decide) rfl (by decide)⟩

/-! ## Embedding wrapper (C9) -/

/-- The placeholder contains no newline, so the replacement fixes it. -/
theorem replaceNewlines_placeholder :
    replaceNewlines "empty_input_placeholder" = "empty_input_placeholder" := by
  decide

/-- `replace("\n", " ")` acts on the character data. -/
theorem replaceNewlines_data (s : String) :
    (replaceNewlines s).data =
      s.data.map fun c => if c = '\n' then ' ' else c := rfl

/-- Newline replacement never empties a non-empty string. -/
theorem replaceNewlines_ne_empty {s : String} (h : s ≠ "") :
    replaceNewlines s ≠ "" := by
  intro hc
  apply h
  apply String.ext
  have hdata := congrArg String.data hc
  rw [replaceNewlines_data] at hdata
  simpa using hdata

/-- C9: `get_embedding` substitutes the fixed placeholder for a `None`,
empty, or whitespace-only input — the collaborator is never called with
empty text — replaces newlines with spaces, and returns the collaborator's
vector as a float32 array of shape `(1, n)`; when the collaborator honours
the store dimension, the shape is `(1, dimension)`. -/
theorem C9_get_embedding_spec (svc : String → List Int)
    (text0 : Option String) :
    (get_embedding svc text0).2 ≠ "" ∧
    ((pyTruthy text0 = false ∨ stripIsEmpty (text0.getD "") = true) →
      (get_embedding svc text0).2 = "empty_input_placeholder") ∧
    (pyTruthy text0 = true → stripIsEmpty (text0.getD "") = false →
      (get_embedding svc text0).2 = replaceNewlines (text0.getD "")) ∧
    (get_embedding svc text0).1.dtype = "float32" ∧
    (get_embedding svc text0).1.rows = 1 ∧
    (get_embedding svc text0).1.entries = svc (get_embedding svc text0).2 ∧
    ((∀ s, (svc s).length = dimension) →
      (get_embedding svc text0).1.cols = dimension) := by
  by_cases hc : (!pyTruthy text0 || stripIsEmpty (text0.getD "")) = true
  · have hsent : (get_embedding svc text0).2 = "empty_input_placeholder" := by
      simp only [get_embedding]
      rw [if_pos hc, replaceNewlines_placeholder]
    refine ⟨?_, fun _ => hsent, ?_, rfl, rfl, rfl, fun hlen => ?_⟩
    · rw [hsent]; decide
    · intro ht hs
      rw [Bool.or_eq_true, Bool.not_eq_true'] at hc
      rcases hc with hc | hc
      · rw [ht] at hc; exact absurd hc (by decide)
      · rw [hs] at hc; exact absurd hc (by decide)
    · simp only [get_embedding]
      exact hlen _
  · have ht : pyTruthy text0 = true := by
      cases hpt : pyTruthy text0
      · exact absurd (by rw [hpt]; rfl) hc
      · rfl
    have hs : stripIsEmpty (text0.getD "") = false := by
      cases hse : stripIsEmpty (text0.getD "")
      · rfl
      · exact absurd (by rw [hse]; simp) hc
    have hsent : (get_embedding svc text0).2 =
        replaceNewlines (text0.getD "") := by
      simp only [get_embedding]
      rw [if_neg hc]
    have hne : text0.getD "" ≠ "" := by
      cases text0 with
      | none => exact absurd ht (by decide)
      | some s =>
        simp only [Option.getD]
        simpa [pyTruthy] using ht
    refine ⟨?_, ?_, fun _ _ => hsent, rfl, rfl, rfl, fun hlen => ?_⟩
    · rw [hsent]; exact replaceNewlines_ne_empty hne
    · intro habs
      rcases habs with habs | habs
      · rw [ht] at habs; exact absurd habs (by decide)
      · rw [hs] at habs; exact absurd habs (by decide)
    · simp only [get_embedding]
      exact hlen _

/-- Witness for C9: a whitespace-only input is replaced by the placeholder
before the collaborator is invoked. -/
theorem C9_get_embedding_spec_witness :
    (pyTruthy (some " \n ") = false ∨ stripIsEmpty ((some " \n ").getD "") = true) ∧
    (get_embedding svc0 (some " \n ")).2 = "empty_input_placeholder" :=
  ⟨Or.inr (by decide),
   (C9_get_embedding_spec svc0 (some " \n ")).2.1 (Or.inr (by decide))⟩

/-! ## Retrieval join (C7) -/

/-- C7: `search_knowledge` drops the sentinel `-1` before querying the
metadata store, keeps an identifier only when a matching row exists,
silently drops identifiers with no metadata row, and returns both lists
in the id order handed back by the vector indexes (a `filterMap` of the
filtered id lists). -/
theorem C7_search_join_spec
    (fs : FaissIndex → NpArray → Nat → List Int)
    (env : Env) (st : RagState) (q : String) (k : Nat) :
    (search_knowledge fs env st q k).1 =
      ((fs st.paper_index (get_embedding env.embed (some q)).1 k).filter
          (· ≠ -1)).filterMap
        (fun v => (st.db.papers.find? (·.vector_id = v)).map
          (·.metadata_json)) ∧
    (search_knowledge fs env st q k).2 =
      ((fs st.force_index (get_embedding env.embed (some q)).1 k).filter
          (· ≠ -1)).filterMap
        (fun v => (st.db.force_fields.find? (·.vector_id = v)).map
          (fun r => (r.force_json, r.source_paper))) := by
  constructor
  · simp only [search_knowledge, join_papers]
    rw [join_papers_go]
    simp
  · simp only [search_knowledge, join_forces]
    rw [join_forces_go]
    simp

/-! ## Error propagation to the caller (C2) -/

/-- The lock-held ingest body returns `None` on every path. -/
theorem ingest_stored_path_ret_none (env : Env) (st : RagState)
    (d : StructuredData) : (ingest_stored_path env st d).ret = none := by
  cases hsp : env.save_paper_ok <;>
    cases hff : d.force_fields <;>
      cases hsf : env.save_force_ok <;>
        simp [ingest_stored_path, safe_save_index, hsp, hff, hsf]

/-- `update_vector_db` returns `None` on every path: each `return` in the
source is bare and the exception handlers fall off the end of the body. -/
theorem update_ret_none (env : Env) (st : RagState) (d : StructuredData) :
    (update_vector_db env st d).ret = none := by
  unfold update_vector_db
  split
  · rfl
  · split
    · rfl
    · split
      · rfl
      · exact ingest_stored_path_ret_none env st d

/-- C2 counterexample: a persistence failure during the force-index save
and a lock-acquisition timeout both hand the caller the same `None` that a
successful store does — the failures are caught inside `update_vector_db`
and only logged, not surfaced. -/
theorem C2_counterexample :
    (update_vector_db envForceSaveFail st0 sampleData).outcome =
      Outcome.errCaught "save_force_index" ∧
    (update_vector_db envForceSaveFail st0 sampleData).ret =
      (update_vector_db env0 st0 sampleData).ret ∧
    (update_vector_db envLockFail st0 sampleData).ret =
      (update_vector_db env0 st0 sampleData).ret := by
  decide

/-- C2 (amended): no exception ever escapes `update_vector_db` — lock
timeouts and persistence failures are caught by its handlers — but the
outcome is not surfaced: the caller receives `None` in every case, so a
lock timeout (shown here) or a persistence failure is swallowed with the
state left unchanged and only a log line to tell. -/
theorem C2_errors_swallowed (env : Env) (st : RagState) (d : StructuredData) :
    (update_vector_db env st d).ret = none ∧
    (is_valid_physics_data d = true → env.lock_ok = false →
      update_vector_db env st d =
        { outcome := Outcome.errLock, state := st, trace := [],
          ret := none }) := by
  refine ⟨update_ret_none env st d, fun hv hl => ?_⟩
  unfold update_vector_db
  simp [hv, hl]

/-- Witness for C2 (amended): the lock-timeout run on the sample record. -/
theorem C2_errors_swallowed_witness :
    is_valid_physics_data sampleData = true ∧
    envLockFail.lock_ok = false ∧
    update_vector_db envLockFail st0 sampleData =
      { outcome := Outcome.errLock, state := st0, trace := [],
        ret := none } :=
  ⟨by decide, rfl,
   (C2_errors_swallowed envLockFail st0 sampleData).2 (by decide) rfl⟩

/-! ## Loop invariants of the ingest body -/

/-- Appending a row whose hash is absent preserves hash uniqueness. -/
theorem hashesUnique_append {l : List ForceRow} {r : ForceRow}
    (hu : hashesUnique l = true)
    (hnot : l.any (·.formula_hash = r.formula_hash) = false) :
    hashesUnique (l ++ [r]) = true := by
  induction l with
  | nil => simp [hashesUnique]
  | cons a t ih =>
    rw [List.any_cons, Bool.or_eq_false_iff] at hnot
    unfold hashesUnique at hu
    rw [Bool.and_eq_true, Bool.not_eq_true'] at hu
    rw [List.cons_append]
    unfold hashesUnique
    rw [Bool.and_eq_true, Bool.not_eq_true']
    refine ⟨?_, ih hu.2 hnot.2⟩
    rw [List.any_append, Bool.or_eq_false_iff]
    refine ⟨hu.1, ?_⟩
    have hne : a.formula_hash ≠ r.formula_hash := by
      simpa using hnot.1
    simp only [List.any_cons, List.any_nil, Bool.or_false]
    rw [decide_eq_false_iff_not]
    exact fun h => hne h.symm

/-- Backfilling the fresh id touches only the freshly appended row. -/
theorem backfillForceRows_append (K : Nat) (rows : List ForceRow)
    (r : ForceRow) (hb : ∀ f ∈ rows, f.id < K) (hr : r.id = K) :
    backfillForceRows K (rows ++ [r]) =
      rows ++ [{ r with vector_id := (K : Int) }] := by
  unfold backfillForceRows
  rw [List.map_append, map_if_id _ _ _ fun f hf => Nat.ne_of_lt (hb f hf)]
  simp [hr]

/-- Backfilling the fresh id touches only the freshly appended row. -/
theorem backfillPaperRows_append (K : Nat) (rows : List PaperRow)
    (r : PaperRow) (hb : ∀ p ∈ rows, p.id < K) (hr : r.id = K) :
    backfillPaperRows K (rows ++ [r]) =
      rows ++ [{ r with vector_id := (K : Int) }] := by
  unfold backfillPaperRows
  rw [List.map_append, map_if_id _ _ _ fun p hp => Nat.ne_of_lt (hb p hp)]
  simp [hr]

/-- The two possible shapes of one force-loop iteration, fully explicit. -/
theorem processForce_eq (env : Env) (title : String) (d : StructuredData)
    (acc : FFAcc) (ff : ForceField) :
    processForce env title d acc ff =
      if acc.rows.any
          (·.formula_hash = force_fingerprint env.md5hex d ff) then
        ({ acc with evs := acc.evs ++
            [Ev.forceDupSkip (force_fingerprint env.md5hex d ff)] } : FFAcc)
      else
        ({ rows :=
             backfillForceRows acc.seq
               (acc.rows ++
                 [{ id := acc.seq,
                    formula_hash := force_fingerprint env.md5hex d ff,
                    force_json := ff, source_paper := title,
                    vector_id := -1 }]),
           seq := acc.seq + 1,
           fidx := acc.fidx ++
             [((acc.seq : Int),
               (get_embedding env.embed (some (force_embed_input ff))).1.entries)],
           evs := acc.evs ++
             [Ev.insertForce acc.seq (-1), Ev.addForceVec acc.seq,
              Ev.backfillForce acc.seq (acc.seq : Int)] } : FFAcc) := rfl

/-- One figure-loop iteration, fully explicit. -/
theorem processFigure_eq (pid : Nat) (acc : List FigureRow × Nat × List Ev)
    (fig : Figure) :
    processFigure pid acc fig =
      (acc.1 ++
        [{ id := acc.2.1, paper_id := pid, image_path := fig.image_path,
           caption := fig.caption, page_num := fig.page,
           figure_vector_id := none }],
       acc.2.1 + 1, acc.2.2 ++ [Ev.insertFigure acc.2.1 pid]) := rfl

/-- Invariant of the force-field loop: row ids stay below the counter; the
in-memory force index and the event list only grow; every row is either a
pre-existing one or was inserted with the sentinel, given a vector under
its own fresh primary key, and backfilled to `vector_id = id`; and hash
uniqueness is preserved. -/
theorem force_fold_spec (env : Env) (title : String) (d : StructuredData)
    (ffs : List ForceField) (acc0 : FFAcc)
    (hwf : ∀ f ∈ acc0.rows, f.id < acc0.seq) :
    (∀ f ∈ (ffs.foldl (processForce env title d) acc0).rows,
        f.id < (ffs.foldl (processForce env title d) acc0).seq) ∧
    (∃ t, (ffs.foldl (processForce env title d) acc0).fidx =
        acc0.fidx ++ t) ∧
    (∃ t, (ffs.foldl (processForce env title d) acc0).evs = acc0.evs ++ t ∧
        ∀ e ∈ t, isForceEv e = true) ∧
    (∀ f ∈ (ffs.foldl (processForce env title d) acc0).rows,
      f ∈ acc0.rows ∨
        (f.vector_id = (f.id : Int) ∧
          (∃ v, ((f.id : Int), v) ∈
            (ffs.foldl (processForce env title d) acc0).fidx) ∧
          Ev.insertForce f.id (-1) ∈
            (ffs.foldl (processForce env title d) acc0).evs ∧
          Ev.backfillForce f.id (f.id : Int) ∈
            (ffs.foldl (processForce env title d) acc0).evs)) ∧
    (hashesUnique acc0.rows = true →
      hashesUnique (ffs.foldl (processForce env title d) acc0).rows = true) := by
  have h := foldl_pres
    (fun acc : FFAcc =>
      (∀ f ∈ acc.rows, f.id < acc.seq) ∧
      (∃ t, acc.fidx = acc0.fidx ++ t) ∧
      (∃ t, acc.evs = acc0.evs ++ t ∧ ∀ e ∈ t, isForceEv e = true) ∧
      (∀ f ∈ acc.rows,
        f ∈ acc0.rows ∨
          (f.vector_id = (f.id : Int) ∧
            (∃ v, ((f.id : Int), v) ∈ acc.fidx) ∧
            Ev.insertForce f.id (-1) ∈ acc.evs ∧
            Ev.backfillForce f.id (f.id : Int) ∈ acc.evs)) ∧
      (hashesUnique acc0.rows = true → hashesUnique acc.rows = true))
    (processForce env title d) ?_ ffs acc0
    ⟨hwf, ⟨[], by simp⟩, ⟨[], by simp⟩, fun f hf => Or.inl hf, fun hu => hu⟩
  · exact h
  · rintro acc ff ⟨hb, ⟨tf, htf⟩, ⟨te, hte, hfe⟩, hrows, hhu⟩
    rw [processForce_eq]
    by_cases hdup :
        (acc.rows.any
          (·.formula_hash = force_fingerprint env.md5hex d ff)) = true
    · rw [if_pos hdup]
      refine ⟨hb,
        ⟨tf, htf⟩,
        ⟨te ++ [Ev.forceDupSkip (force_fingerprint env.md5hex d ff)],
          by rw [hte, List.append_assoc], ?_⟩, ?_, hhu⟩
      · intro e he
        rcases List.mem_append.1 he with he | he
        · exact hfe e he
        · rw [List.mem_singleton.1 he]
          rfl
      · intro f hf
        rcases hrows f hf with hf' | ⟨h1, ⟨v, h2⟩, h3, h4⟩
        · exact Or.inl hf'
        · exact Or.inr ⟨h1, ⟨v, h2⟩,
            List.mem_append_left _ h3, List.mem_append_left _ h4⟩
    · rw [if_neg hdup]
      have hmap :
          backfillForceRows acc.seq
            (acc.rows ++
              [({ id := acc.seq,
                  formula_hash := force_fingerprint env.md5hex d ff,
                  force_json := ff, source_paper := title,
                  vector_id := -1 } : ForceRow)]) =
            acc.rows ++
              [{ id := acc.seq,
                 formula_hash := force_fingerprint env.md5hex d ff,
                 force_json := ff, source_paper := title,
                 vector_id := (acc.seq : Int) }] :=
        backfillForceRows_append _ _ _ (fun f hf => hb f hf) rfl
      simp only [hmap]
      refine ⟨?_,
        ⟨tf ++ [((acc.seq : Int),
            (get_embedding env.embed (some (force_embed_input ff))).1.entries)],
          by rw [htf, List.append_assoc]⟩,
        ⟨te ++ [Ev.insertForce acc.seq (-1), Ev.addForceVec acc.seq,
            Ev.backfillForce acc.seq (acc.seq : Int)],
          by rw [hte, List.append_assoc], ?_⟩, ?_, ?_⟩
      · intro f hf
        rcases List.mem_append.1 hf with hf | hf
        · exact Nat.lt_succ_of_lt (hb f hf)
        · rw [List.mem_singleton.1 hf]
          exact Nat.lt_succ_self _
      · intro e he
        rcases List.mem_append.1 he with he | he
        · exact hfe e he
        · simp only [List.mem_cons, List.mem_singleton,
            List.not_mem_nil, or_false] at he
          rcases he with rfl | rfl | rfl <;> rfl
      · intro f hf
        rcases List.mem_append.1 hf with hf | hf
        · rcases hrows f hf with hf' | ⟨h1, ⟨v, h2⟩, h3, h4⟩
          · exact Or.inl hf'
          · exact Or.inr ⟨h1, ⟨v, List.mem_append_left _ h2⟩,
              List.mem_append_left _ h3, List.mem_append_left _ h4⟩
        · rw [List.mem_singleton.1 hf]
          refine Or.inr ⟨rfl,
            ⟨(get_embedding env.embed (some (force_embed_input ff))).1.entries,
              List.mem_append_right _ (by simp)⟩,
            List.mem_append_right _ (by simp),
            List.mem_append_right _ (by simp)⟩
      · intro hu
        apply hashesUnique_append (hhu hu)
        show acc.rows.any
          (·.formula_hash = force_fingerprint env.md5hex d ff) = false
        rwa [Bool.not_eq_true] at hdup

/-- Invariant of the figures loop: every row is a pre-existing one or was
inserted with the record's primary key as foreign key and no vector id;
the events appended are exactly figure inserts for that key. -/
theorem figures_fold_spec (pid : Nat) (figs : List Figure)
    (rows0 : List FigureRow) (seq0 : Nat) (evs0 : List Ev) :
    (∀ r ∈ (processFigures pid figs (rows0, seq0, evs0)).1,
      r ∈ rows0 ∨ (r.paper_id = pid ∧ r.figure_vector_id = none)) ∧
    (∃ t, (processFigures pid figs (rows0, seq0, evs0)).2.2 = evs0 ++ t ∧
      ∀ e ∈ t, ∃ i, e = Ev.insertFigure i pid) := by
  have h := foldl_pres
    (fun acc : List FigureRow × Nat × List Ev =>
      (∀ r ∈ acc.1, r ∈ rows0 ∨ (r.paper_id = pid ∧ r.figure_vector_id = none)) ∧
      (∃ t, acc.2.2 = evs0 ++ t ∧ ∀ e ∈ t, ∃ i, e = Ev.insertFigure i pid))
    (processFigure pid) ?_ figs (rows0, seq0, evs0)
    ⟨fun r hr => Or.inl hr, ⟨[], by simp⟩⟩
  · exact h
  · rintro acc fig ⟨hrows, ⟨t, ht, hfig⟩⟩
    rw [processFigure_eq]
    refine ⟨?_, ⟨t ++ [Ev.insertFigure acc.2.1 pid],
      by rw [ht, List.append_assoc], ?_⟩⟩
    · intro r hr
      rcases List.mem_append.1 hr with hr | hr
      · exact hrows r hr
      · rw [List.mem_singleton.1 hr]
        exact Or.inr ⟨rfl, rfl⟩
    · intro e he
      rcases List.mem_append.1 he with he | he
      · exact hfig e he
      · rw [List.mem_singleton.1 he]
        exact ⟨acc.2.1, rfl⟩

/-! ## Shape of the lock-held ingest body, by case -/

/-- When the quality gate passes, the lock is acquired and the title is
fresh, `update_vector_db` runs the stored-path body. -/
theorem update_eq_stored_path (env : Env) (st : RagState)
    (d : StructuredData)
    (hvalid : is_valid_physics_data d = true)
    (hlock : env.lock_ok = true)
    (hdup : st.db.papers.any (·.title = d.metadata.title) = false) :
    update_vector_db env st d = ingest_stored_path env st d := by
  unfold update_vector_db
  simp [hvalid, hlock, hdup]

/-- Stored-path shape when the paper-index save fails: rollback; the
in-memory paper index keeps the vector; nothing else changes. -/
theorem ingest_eq_sp_fail (env : Env) (st : RagState) (d : StructuredData)
    (hsp : env.save_paper_ok = false) :
    ingest_stored_path env st d =
      { outcome := Outcome.errCaught "save_paper_index",
        state := { st with paper_index := st.paper_index ++
          [((st.db.paper_seq : Int),
            (get_embedding env.embed (some (paper_embed_input d))).1.entries)] },
        trace := [Ev.lockAcquired, Ev.insertPaper st.db.paper_seq (-1),
          Ev.addPaperVec st.db.paper_seq,
          Ev.backfillPaper st.db.paper_seq (st.db.paper_seq : Int),
          Ev.savePaperIndex false, Ev.rollback, Ev.lockReleased],
        ret := none } := by
  unfold ingest_stored_path
  rw [hsp]
  rfl

/-- Stored-path shape when both saves succeed and the record carries a
`force_fields` list. -/
theorem ingest_eq_store (env : Env) (st : RagState) (d : StructuredData)
    (ffs : List ForceField)
    (hsp : env.save_paper_ok = true) (hsf : env.save_force_ok = true)
    (hff : d.force_fields = some ffs) :
    ingest_stored_path env st d =
      (let K := st.db.paper_seq
       let pv := (get_embedding env.embed (some (paper_embed_input d))).1.entries
       let pidx1 : FaissIndex := st.paper_index ++ [((K : Int), pv)]
       let papers3 := backfillPaperRows K (st.db.papers ++
         [{ id := K, title := d.metadata.title, metadata_json := d,
            vector_id := -1 }])
       let evs1 := [Ev.lockAcquired, Ev.insertPaper K (-1), Ev.addPaperVec K,
         Ev.backfillPaper K (K : Int), Ev.savePaperIndex true]
       let figAcc := processFigures K (d.figures.getD [])
         (st.db.figures, st.db.figure_seq, evs1)
       let acc1 := ffs.foldl (processForce env d.metadata.title d)
         { rows := st.db.force_fields, seq := st.db.force_seq,
           fidx := st.force_index, evs := figAcc.2.2 }
       { outcome := Outcome.stored,
         state := { db := { papers := papers3, force_fields := acc1.rows,
                            figures := figAcc.1, paper_seq := K + 1,
                            force_seq := acc1.seq,
                            figure_seq := figAcc.2.1 },
                    paper_index := pidx1, force_index := acc1.fidx,
                    paper_file := pidx1, force_file := acc1.fidx },
         trace := acc1.evs ++
           [Ev.saveForceIndex true, Ev.commit, Ev.lockReleased],
         ret := none }) := by
  unfold ingest_stored_path
  rw [hsp, hff]
  cases hfig : d.figures <;> rw [hsf] <;> rfl

/-- Stored-path shape when the paper save succeeds and the record has no
`force_fields` key: the force index and its file are untouched. -/
theorem ingest_eq_store_noforce (env : Env) (st : RagState)
    (d : StructuredData)
    (hsp : env.save_paper_ok = true) (hff : d.force_fields = none) :
    ingest_stored_path env st d =
      (let K := st.db.paper_seq
       let pv := (get_embedding env.embed (some (paper_embed_input d))).1.entries
       let pidx1 : FaissIndex := st.paper_index ++ [((K : Int), pv)]
       let papers3 := backfillPaperRows K (st.db.papers ++
         [{ id := K, title := d.metadata.title, metadata_json := d,
            vector_id := -1 }])
       let evs1 := [Ev.lockAcquired, Ev.insertPaper K (-1), Ev.addPaperVec K,
         Ev.backfillPaper K (K : Int), Ev.savePaperIndex true]
       let figAcc := processFigures K (d.figures.getD [])
         (st.db.figures, st.db.figure_seq, evs1)
       { outcome := Outcome.stored,
         state := { db := { papers := papers3,
                            force_fields := st.db.force_fields,
                            figures := figAcc.1, paper_seq := K + 1,
                            force_seq := st.db.force_seq,
                            figure_seq := figAcc.2.1 },
                    paper_index := pidx1, force_index := st.force_index,
                    paper_file := pidx1, force_file := st.force_file },
         trace := figAcc.2.2 ++ [Ev.commit, Ev.lockReleased],
         ret := none }) := by
  unfold ingest_stored_path
  rw [hsp, hff]
  cases hfig : d.figures <;> rfl

/-- Stored-path shape when the force-index save fails: the transaction is
rolled back (the database reverts), but the in-memory indexes keep every
added vector and the paper-index file has already been replaced. -/
theorem ingest_eq_sf_fail (env : Env) (st : RagState) (d : StructuredData)
    (ffs : List ForceField)
    (hsp : env.save_paper_ok = true) (hsf : env.save_force_ok = false)
    (hff : d.force_fields = some ffs) :
    ingest_stored_path env st d =
      (let K := st.db.paper_seq
       let pv := (get_embedding env.embed (some (paper_embed_input d))).1.entries
       let pidx1 : FaissIndex := st.paper_index ++ [((K : Int), pv)]
       let evs1 := [Ev.lockAcquired, Ev.insertPaper K (-1), Ev.addPaperVec K,
         Ev.backfillPaper K (K : Int), Ev.savePaperIndex true]
       let figAcc := processFigures K (d.figures.getD [])
         (st.db.figures, st.db.figure_seq, evs1)
       let acc1 := ffs.foldl (processForce env d.metadata.title d)
         { rows := st.db.force_fields, seq := st.db.force_seq,
           fidx := st.force_index, evs := figAcc.2.2 }
       { outcome := Outcome.errCaught "save_force_index",
         state := { st with paper_index := pidx1, force_index := acc1.fidx,
                            paper_file := pidx1 },
         trace := acc1.evs ++
           [Ev.saveForceIndex false, Ev.rollback, Ev.lockReleased],
         ret := none }) := by
  unfold ingest_stored_path
  rw [hsp, hff]
  cases hfig : d.figures <;> rw [hsf] <;> rfl

/-! ## C1: vector identifier equals metadata primary key -/

/-- C1: on a successful store, the paper row is inserted first with
sentinel `-1` (the trace starts with insert, `add_with_ids`, backfill,
save), the vector goes into the paper index under exactly the fresh
primary key, and the committed row carries `vector_id` equal to that key;
likewise every newly stored force row has `vector_id` equal to its own
primary key, its vector sits in the force index under that key, and its
trace shows the sentinel insert followed by the backfill. -/
theorem C1_vector_id_is_primary_key (env : Env) (st : RagState)
    (d : StructuredData)
    (hwfp : ∀ p ∈ st.db.papers, p.id < st.db.paper_seq)
    (hwff : ∀ f ∈ st.db.force_fields, f.id < st.db.force_seq)
    (hvalid : is_valid_physics_data d = true)
    (hlock : env.lock_ok = true)
    (hdup : st.db.papers.any (·.title = d.metadata.title) = false)
    (hsp : env.save_paper_ok = true)
    (hsf : env.save_force_ok = true) :
    (update_vector_db env st d).outcome = Outcome.stored ∧
    (update_vector_db env st d).state.db.papers =
      st.db.papers ++
        [{ id := st.db.paper_seq, title := d.metadata.title,
           metadata_json := d, vector_id := (st.db.paper_seq : Int) }] ∧
    (∃ v, (update_vector_db env st d).state.paper_index =
      st.paper_index ++ [((st.db.paper_seq : Int), v)]) ∧
    (∃ t, (update_vector_db env st d).trace =
      [Ev.lockAcquired, Ev.insertPaper st.db.paper_seq (-1),
       Ev.addPaperVec st.db.paper_seq,
       Ev.backfillPaper st.db.paper_seq (st.db.paper_seq : Int),
       Ev.savePaperIndex true] ++ t) ∧
    (∀ f ∈ (update_vector_db env st d).state.db.force_fields,
      f ∈ st.db.force_fields ∨
        (f.vector_id = (f.id : Int) ∧
         (∃ v, ((f.id : Int), v) ∈
           (update_vector_db env st d).state.force_index) ∧
         Ev.insertForce f.id (-1) ∈ (update_vector_db env st d).trace ∧
         Ev.backfillForce f.id (f.id : Int) ∈
           (update_vector_db env st d).trace)) := by
  rw [update_eq_stored_path env st d hvalid hlock hdup]
  have hpap := backfillPaperRows_append st.db.paper_seq st.db.papers
    { id := st.db.paper_seq, title := d.metadata.title, metadata_json := d,
      vector_id := -1 } hwfp rfl
  cases hff : d.force_fields with
  | none =>
    rw [ingest_eq_store_noforce env st d hsp hff]
    simp only []
    obtain ⟨_, ⟨tfig, htfig, _⟩⟩ := figures_fold_spec st.db.paper_seq
      (d.figures.getD []) st.db.figures st.db.figure_seq
      [Ev.lockAcquired, Ev.insertPaper st.db.paper_seq (-1),
       Ev.addPaperVec st.db.paper_seq,
       Ev.backfillPaper st.db.paper_seq (st.db.paper_seq : Int),
       Ev.savePaperIndex true]
    refine ⟨trivial, by rw [hpap], ⟨_, rfl⟩,
      ⟨tfig ++ [Ev.commit, Ev.lockReleased],
        by rw [htfig, List.append_assoc]⟩,
      fun f hf => Or.inl hf⟩
  | some ffs =>
    rw [ingest_eq_store env st d ffs hsp hsf hff]
    simp only []
    obtain ⟨_, ⟨tfig, htfig, _⟩⟩ := figures_fold_spec st.db.paper_seq
      (d.figures.getD []) st.db.figures st.db.figure_seq
      [Ev.lockAcquired, Ev.insertPaper st.db.paper_seq (-1),
       Ev.addPaperVec st.db.paper_seq,
       Ev.backfillPaper st.db.paper_seq (st.db.paper_seq : Int),
       Ev.savePaperIndex true]
    obtain ⟨_, _, ⟨te, hte, _⟩, hrows, _⟩ := force_fold_spec env
      d.metadata.title d ffs
      { rows := st.db.force_fields, seq := st.db.force_seq,
        fidx := st.force_index,
        evs := (processFigures st.db.paper_seq (d.figures.getD [])
          (st.db.figures, st.db.figure_seq,
           [Ev.lockAcquired, Ev.insertPaper st.db.paper_seq (-1),
            Ev.addPaperVec st.db.paper_seq,
            Ev.backfillPaper st.db.paper_seq (st.db.paper_seq : Int),
            Ev.savePaperIndex true])).2.2 }
      hwff
    refine ⟨trivial, by rw [hpap], ⟨_, rfl⟩,
      ⟨tfig ++ (te ++ [Ev.saveForceIndex true, Ev.commit, Ev.lockReleased]),
        ?_⟩, ?_⟩
    · rw [hte, htfig]
      simp [List.append_assoc]
    · intro f hf
      rcases hrows f hf with hf' | ⟨h1, ⟨v, h2⟩, h3, h4⟩
      · exact Or.inl hf'
      · exact Or.inr ⟨h1, ⟨v, h2⟩,
          List.mem_append_left _ h3, List.mem_append_left _ h4⟩

/-- Witness for C1: ingesting the sample record into the empty store. -/
theorem C1_vector_id_is_primary_key_witness :
    (∀ p ∈ st0.db.papers, p.id < st0.db.paper_seq) ∧
    (∀ f ∈ st0.db.force_fields, f.id < st0.db.force_seq) ∧
    is_valid_physics_data sampleData = true ∧
    env0.lock_ok = true ∧
    st0.db.papers.any (·.title = sampleData.metadata.title) = false ∧
    env0.save_paper_ok = true ∧ env0.save_force_ok = true ∧
    (update_vector_db env0 st0 sampleData).outcome = Outcome.stored ∧
    (update_vector_db env0 st0 sampleData).state.db.papers =
      st0.db.papers ++
        [{ id := st0.db.paper_seq, title := sampleData.metadata.title,
           metadata_json := sampleData,
           vector_id := (st0.db.paper_seq : Int) }] :=
  ⟨by decide, by decide, by decide, rfl, by decide, rfl, rfl,
   (C1_vector_id_is_primary_key env0 st0 sampleData (by decide) (by decide)
     (by decide) rfl (by decide) rfl rfl).1,
   (C1_vector_id_is_primary_key env0 st0 sampleData (by decide) (by decide)
     (by decide) rfl (by decide) rfl rfl).2.1⟩

/-! ## C5: atomic index persist and rollback -/

/-- C5: `_safe_save_index` leaves no temporary file behind — on success the
live path atomically becomes the new index, on failure the temp file is
removed, the live path is untouched and the error propagates (second
component `false`); inside `update_vector_db` any caught save failure rolls
the metadata transaction back to the pre-call database; and the durability
invariant is preserved by every call: the committed store never holds a
row whose `vector_id` lacks an entry in the persisted index file. -/
theorem C5_atomic_persist (env : Env) (st : RagState) (d : StructuredData)
    (hwf : StoreWF st) (hcons : Consistent st) :
    (∀ (ok : Bool) (idx : FaissIndex) (f : IdxFile),
      (safe_save_index ok idx f).1.tmp = none ∧
      (ok = true → (safe_save_index ok idx f).1.live = idx ∧
        (safe_save_index ok idx f).2 = true) ∧
      (ok = false → (safe_save_index ok idx f).1.live = f.live ∧
        (safe_save_index ok idx f).2 = false)) ∧
    (∀ tag, (update_vector_db env st d).outcome = Outcome.errCaught tag →
      (update_vector_db env st d).state.db = st.db) ∧
    Consistent (update_vector_db env st d).state := by
  refine ⟨?_, ?_⟩
  · intro ok idx f
    cases ok <;> simp [safe_save_index]
  by_cases hv : is_valid_physics_data d = true
  case neg =>
    have hv' : is_valid_physics_data d = false := by
      rwa [Bool.not_eq_true] at hv
    have heq : update_vector_db env st d =
        { outcome := Outcome.skippedInvalid, state := st, trace := [],
          ret := none } := by
      unfold update_vector_db
      simp [hv']
    rw [heq]
    exact ⟨fun tag h => Outcome.noConfusion h, hcons⟩
  by_cases hl : env.lock_ok = true
  case neg =>
    have hl' : env.lock_ok = false := by
      rwa [Bool.not_eq_true] at hl
    have heq : update_vector_db env st d =
        { outcome := Outcome.errLock, state := st, trace := [],
          ret := none } := by
      unfold update_vector_db
      simp [hv, hl']
    rw [heq]
    exact ⟨fun tag h => Outcome.noConfusion h, hcons⟩
  by_cases hd : st.db.papers.any (·.title = d.metadata.title) = true
  case pos =>
    have heq : update_vector_db env st d =
        { outcome := Outcome.skippedDuplicate, state := st,
          trace := [Ev.lockAcquired, Ev.lockReleased], ret := none } := by
      unfold update_vector_db
      simp [hv, hl, hd]
    rw [heq]
    exact ⟨fun tag h => Outcome.noConfusion h, hcons⟩
  have hd' : st.db.papers.any (·.title = d.metadata.title) = false := by
    rwa [Bool.not_eq_true] at hd
  rw [update_eq_stored_path env st d hv hl hd']
  have hpap := backfillPaperRows_append st.db.paper_seq st.db.papers
    { id := st.db.paper_seq, title := d.metadata.title, metadata_json := d,
      vector_id := -1 } hwf.1 rfl
  cases hsp : env.save_paper_ok with
  | false =>
    rw [ingest_eq_sp_fail env st d hsp]
    refine ⟨fun tag h => rfl, ?_, hcons.2.1, ?_, hcons.2.2.2⟩
    · exact fun e he => List.mem_append_left _ (hcons.1 e he)
    · intro p hp hne
      obtain ⟨e, he, hekey⟩ := hcons.2.2.1 p hp hne
      exact ⟨e, he, hekey⟩
  | true =>
    cases hff : d.force_fields with
    | none =>
      rw [ingest_eq_store_noforce env st d hsp hff]
      simp only []
      refine ⟨fun tag h => Outcome.noConfusion h,
        fun e he => he, hcons.2.1, ?_, hcons.2.2.2⟩
      rw [hpap]
      intro p hp hne
      rcases List.mem_append.1 hp with hp | hp
      · obtain ⟨e, he, hekey⟩ := hcons.2.2.1 p hp hne
        exact ⟨e, List.mem_append_left _ (hcons.1 e he), hekey⟩
      · rw [List.mem_singleton.1 hp]
        exact ⟨((st.db.paper_seq : Int),
          (get_embedding env.embed (some (paper_embed_input d))).1.entries),
          List.mem_append_right _ (by simp), rfl⟩
    | some ffs =>
      obtain ⟨_, ⟨tf, htf⟩, _, hrows, _⟩ := force_fold_spec env
        d.metadata.title d ffs
        { rows := st.db.force_fields, seq := st.db.force_seq,
          fidx := st.force_index,
          evs := (processFigures st.db.paper_seq (d.figures.getD [])
            (st.db.figures, st.db.figure_seq,
             [Ev.lockAcquired, Ev.insertPaper st.db.paper_seq (-1),
              Ev.addPaperVec st.db.paper_seq,
              Ev.backfillPaper st.db.paper_seq (st.db.paper_seq : Int),
              Ev.savePaperIndex true])).2.2 }
        hwf.2
      cases hsf : env.save_force_ok with
      | false =>
        rw [ingest_eq_sf_fail env st d ffs hsp hsf hff]
        simp only []
        refine ⟨fun tag h => trivial, fun e he => he, ?_, ?_, hcons.2.2.2⟩
        · intro e he
          rw [htf]
          exact List.mem_append_left _ (hcons.2.1 e he)
        · intro p hp hne
          obtain ⟨e, he, hekey⟩ := hcons.2.2.1 p hp hne
          exact ⟨e, List.mem_append_left _ (hcons.1 e he), hekey⟩
      | true =>
        rw [ingest_eq_store env st d ffs hsp hsf hff]
        simp only []
        refine ⟨fun tag h => Outcome.noConfusion h,
          fun e he => he, fun e he => he, ?_, ?_⟩
        · rw [hpap]
          intro p hp hne
          rcases List.mem_append.1 hp with hp | hp
          · obtain ⟨e, he, hekey⟩ := hcons.2.2.1 p hp hne
            exact ⟨e, List.mem_append_left _ (hcons.1 e he), hekey⟩
          · rw [List.mem_singleton.1 hp]
            exact ⟨((st.db.paper_seq : Int),
              (get_embedding env.embed (some (paper_embed_input d))).1.entries),
              List.mem_append_right _ (by simp), rfl⟩
        · intro f hf hne
          rcases hrows f hf with hf' | ⟨h1, ⟨v, h2⟩, _, _⟩
          · obtain ⟨e, he, hekey⟩ := hcons.2.2.2 f hf' hne
            rw [htf]
            exact ⟨e, List.mem_append_left _ (hcons.2.1 e he), hekey⟩
          · exact ⟨((f.id : Int), v), h2, by rw [h1]⟩

/-- Witness for C5 on the empty store and the sample record. -/
theorem C5_atomic_persist_witness :
    StoreWF st0 ∧ Consistent st0 ∧
    Consistent (update_vector_db env0 st0 sampleData).state :=
  ⟨⟨by decide, by decide⟩, ⟨by decide, by decide, by decide, by decide⟩,
   (C5_atomic_persist env0 st0 sampleData ⟨by decide, by decide⟩
     ⟨by decide, by decide, by decide, by decide⟩).2.2⟩

/-! ## C6: sub-record fingerprint deduplication -/

/-- If every incoming force field's fingerprint is already present, the
force loop inserts nothing, embeds nothing and adds no vector. -/
theorem force_fold_all_dup (env : Env) (title : String) (d : StructuredData)
    (ffs : List ForceField) :
    ∀ acc0 : FFAcc,
      (∀ ff ∈ ffs, acc0.rows.any
        (·.formula_hash = force_fingerprint env.md5hex d ff) = true) →
      (ffs.foldl (processForce env title d) acc0).rows = acc0.rows ∧
      (ffs.foldl (processForce env title d) acc0).seq = acc0.seq ∧
      (ffs.foldl (processForce env title d) acc0).fidx = acc0.fidx := by
  induction ffs with
  | nil => exact fun acc0 _ => ⟨rfl, rfl, rfl⟩
  | cons ff ffs ih =>
    intro acc0 hall
    rw [List.foldl_cons, processForce_eq,
      if_pos (hall ff (List.mem_cons_self ff ffs))]
    exact ih _ fun ff' h' => hall ff' (List.mem_cons_of_mem _ h')

/-- C6: the sub-record fingerprint is a deterministic function of the
sub-record's formula and the owning record's environment string; every
ingest preserves the store-wide uniqueness of fingerprints; and an ingest
whose sub-records all collide with stored ones stores the record while
leaving the force table and the force index untouched (no re-insert, no
re-embedding, no vector write). -/
theorem C6_fingerprint_dedup (env : Env) (st : RagState) (d : StructuredData)
    (hwf : StoreWF st)
    (hu : hashesUnique st.db.force_fields = true) :
    (∀ (d' : StructuredData) (ff ff' : ForceField),
      ff.formula = ff'.formula → envValue d = envValue d' →
      force_fingerprint env.md5hex d ff =
        force_fingerprint env.md5hex d' ff') ∧
    hashesUnique (update_vector_db env st d).state.db.force_fields = true ∧
    (∀ ffs : List ForceField,
      is_valid_physics_data d = true → env.lock_ok = true →
      st.db.papers.any (·.title = d.metadata.title) = false →
      env.save_paper_ok = true → env.save_force_ok = true →
      d.force_fields = some ffs →
      (∀ ff ∈ ffs, st.db.force_fields.any
        (·.formula_hash = force_fingerprint env.md5hex d ff) = true) →
      (update_vector_db env st d).outcome = Outcome.stored ∧
      (update_vector_db env st d).state.db.force_fields =
        st.db.force_fields ∧
      (update_vector_db env st d).state.force_index = st.force_index) := by
  refine ⟨?_, ?_, ?_⟩
  · intro d' ff ff' hf he
    unfold force_fingerprint
    rw [hf, he]
  · by_cases hv : is_valid_physics_data d = true
    case neg =>
      have hv' : is_valid_physics_data d = false := by
        rwa [Bool.not_eq_true] at hv
      have heq : update_vector_db env st d =
          { outcome := Outcome.skippedInvalid, state := st, trace := [],
            ret := none } := by
        unfold update_vector_db
        simp [hv']
      rw [heq]
      exact hu
    by_cases hl : env.lock_ok = true
    case neg =>
      have hl' : env.lock_ok = false := by
        rwa [Bool.not_eq_true] at hl
      have heq : update_vector_db env st d =
          { outcome := Outcome.errLock, state := st, trace := [],
            ret := none } := by
        unfold update_vector_db
        simp [hv, hl']
      rw [heq]
      exact hu
    by_cases hd : st.db.papers.any (·.title = d.metadata.title) = true
    case pos =>
      have heq : update_vector_db env st d =
          { outcome := Outcome.skippedDuplicate, state := st,
            trace := [Ev.lockAcquired, Ev.lockReleased], ret := none } := by
        unfold update_vector_db
        simp [hv, hl, hd]
      rw [heq]
      exact hu
    have hd' : st.db.papers.any (·.title = d.metadata.title) = false := by
      rwa [Bool.not_eq_true] at hd
    rw [update_eq_stored_path env st d hv hl hd']
    cases hsp : env.save_paper_ok with
    | false =>
      rw [ingest_eq_sp_fail env st d hsp]
      exact hu
    | true =>
      cases hff : d.force_fields with
      | none =>
        rw [ingest_eq_store_noforce env st d hsp hff]
        exact hu
      | some ffs =>
        obtain ⟨_, _, _, _, hhu⟩ := force_fold_spec env
          d.metadata.title d ffs
          { rows := st.db.force_fields, seq := st.db.force_seq,
            fidx := st.force_index,
            evs := (processFigures st.db.paper_seq (d.figures.getD [])
              (st.db.figures, st.db.figure_seq,
               [Ev.lockAcquired, Ev.insertPaper st.db.paper_seq (-1),
                Ev.addPaperVec st.db.paper_seq,
                Ev.backfillPaper st.db.paper_seq (st.db.paper_seq : Int),
                Ev.savePaperIndex true])).2.2 }
          hwf.2
        cases hsf : env.save_force_ok with
        | false =>
          rw [ingest_eq_sf_fail env st d ffs hsp hsf hff]
          exact hu
        | true =>
          rw [ingest_eq_store env st d ffs hsp hsf hff]
          simp only []
          exact hhu hu
  · intro ffs hv hl hd hsp hsf hff hall
    rw [update_eq_stored_path env st d hv hl hd,
      ingest_eq_store env st d ffs hsp hsf hff]
    simp only []
    obtain ⟨hr, hs, hx⟩ := force_fold_all_dup env d.metadata.title d ffs
      { rows := st.db.force_fields, seq := st.db.force_seq,
        fidx := st.force_index,
        evs := (processFigures st.db.paper_seq (d.figures.getD [])
          (st.db.figures, st.db.figure_seq,
           [Ev.lockAcquired, Ev.insertPaper st.db.paper_seq (-1),
            Ev.addPaperVec st.db.paper_seq,
            Ev.backfillPaper st.db.paper_seq (st.db.paper_seq : Int),
            Ev.savePaperIndex true])).2.2 }
      hall
    exact ⟨trivial, hr, hx⟩

/-- Witness for C6: re-ingesting the same force field under a new title
into the store already holding it leaves the force table at one row. -/
theorem C6_fingerprint_dedup_witness :
    StoreWF stWithX ∧
    hashesUnique stWithX.db.force_fields = true ∧
    is_valid_physics_data sampleData2 = true ∧
    stWithX.db.papers.any (·.title = sampleData2.metadata.title) = false ∧
    sampleData2.force_fields = some [sampleForce] ∧
    (∀ ff ∈ [sampleForce], stWithX.db.force_fields.any
      (·.formula_hash = force_fingerprint env0.md5hex sampleData2 ff) = true) ∧
    (update_vector_db env0 stWithX sampleData2).outcome = Outcome.stored ∧
    (update_vector_db env0 stWithX sampleData2).state.db.force_fields =
      stWithX.db.force_fields ∧
    (update_vector_db env0 stWithX sampleData2).state.force_index =
      stWithX.force_index :=
  ⟨⟨by decide, by decide⟩, by decide, by decide, by decide, by decide,
   by decide,
   (C6_fingerprint_dedup env0 stWithX sampleData2 ⟨by decide, by decide⟩
     (by decide)).2.2 [sampleForce] (by decide) rfl (by decide) rfl rfl
     (by decide) (by decide)⟩

/-! ## C8: order of the ingest steps -/

/-- The force loop only appends force events to the trace. -/
theorem force_fold_evs_mono (env : Env) (title : String) (d : StructuredData)
    (ffs : List ForceField) :
    ∀ acc0 : FFAcc,
      ∃ t, (ffs.foldl (processForce env title d) acc0).evs = acc0.evs ++ t ∧
        ∀ e ∈ t, isForceEv e = true := by
  induction ffs with
  | nil => exact fun acc0 => ⟨[], by simp, by simp⟩
  | cons ff ffs ih =>
    intro acc0
    rw [List.foldl_cons, processForce_eq]
    by_cases hdup : (acc0.rows.any
        (·.formula_hash = force_fingerprint env.md5hex d ff)) = true
    · rw [if_pos hdup]
      obtain ⟨t, ht, hev⟩ := ih _
      refine ⟨[Ev.forceDupSkip (force_fingerprint env.md5hex d ff)] ++ t,
        ?_, ?_⟩
      · rw [ht]
        simp [List.append_assoc]
      · intro e he
        rcases List.mem_append.1 he with he | he
        · rw [List.mem_singleton.1 he]
          rfl
        · exact hev e he
    · rw [if_neg hdup]
      obtain ⟨t, ht, hev⟩ := ih _
      refine ⟨[Ev.insertForce acc0.seq (-1), Ev.addForceVec acc0.seq,
          Ev.backfillForce acc0.seq (acc0.seq : Int)] ++ t, ?_, ?_⟩
      · rw [ht]
        simp [List.append_assoc]
      · intro e he
        rcases List.mem_append.1 he with he | he
        · simp only [List.mem_cons, List.mem_singleton,
            List.not_mem_nil, or_false] at he
          rcases he with rfl | rfl | rfl <;> rfl
        · exact hev e he

/-- The force loop only appends to the in-memory force index. -/
theorem force_fold_fidx_mono (env : Env) (title : String)
    (d : StructuredData) (ffs : List ForceField) :
    ∀ acc0 : FFAcc,
      ∃ t, (ffs.foldl (processForce env title d) acc0).fidx =
        acc0.fidx ++ t := by
  induction ffs with
  | nil => exact fun acc0 => ⟨[], by simp⟩
  | cons ff ffs ih =>
    intro acc0
    rw [List.foldl_cons, processForce_eq]
    by_cases hdup : (acc0.rows.any
        (·.formula_hash = force_fingerprint env.md5hex d ff)) = true
    · rw [if_pos hdup]
      obtain ⟨t, ht⟩ := ih _
      exact ⟨t, ht⟩
    · rw [if_neg hdup]
      obtain ⟨t, ht⟩ := ih _
      refine ⟨[((acc0.seq : Int),
        (get_embedding env.embed (some (force_embed_input ff))).1.entries)]
          ++ t, ?_⟩
      rw [ht]
      simp [List.append_assoc]

/-- C8 counterexample: on a record carrying one figure and one force
field, the attachment row is inserted before the force-field loop runs —
the trace shows `insertFigure` strictly before `insertForce`, contradicting
the claimed sub-records-then-attachments order. -/
theorem C8_counterexample :
    (update_vector_db env0 st0 sampleData).trace =
      [Ev.lockAcquired, Ev.insertPaper 1 (-1), Ev.addPaperVec 1,
       Ev.backfillPaper 1 1, Ev.savePaperIndex true,
       Ev.insertFigure 1 1,
       Ev.insertForce 1 (-1), Ev.addForceVec 1, Ev.backfillForce 1 1,
       Ev.saveForceIndex true, Ev.commit, Ev.lockReleased] ∧
    (update_vector_db env0 st0 sampleData).trace.indexOf
        (Ev.insertFigure 1 1) <
      (update_vector_db env0 st0 sampleData).trace.indexOf
        (Ev.insertForce 1 (-1)) := by
  decide

/-- C8 (amended): on a successful non-duplicate ingest the order is:
paper insert/vector/backfill and paper-index save, then every attachment
insert (each with the record's primary key as foreign key and no vector
write), then the whole sub-record loop with the secondary-index save, and
the commit is the last step before the lock is released. -/
theorem C8_figures_then_forces (env : Env) (st : RagState)
    (d : StructuredData)
    (hvalid : is_valid_physics_data d = true)
    (hlock : env.lock_ok = true)
    (hdup : st.db.papers.any (·.title = d.metadata.title) = false)
    (hsp : env.save_paper_ok = true)
    (hsf : env.save_force_ok = true) :
    ∃ figEvs forceEvs,
      (update_vector_db env st d).trace =
        [Ev.lockAcquired, Ev.insertPaper st.db.paper_seq (-1),
         Ev.addPaperVec st.db.paper_seq,
         Ev.backfillPaper st.db.paper_seq (st.db.paper_seq : Int),
         Ev.savePaperIndex true] ++ figEvs ++ forceEvs ++
          [Ev.commit, Ev.lockReleased] ∧
      (∀ e ∈ figEvs, ∃ i, e = Ev.insertFigure i st.db.paper_seq) ∧
      (∀ e ∈ forceEvs, isForceEv e = true ∨ e = Ev.saveForceIndex true) ∧
      (∀ g ∈ (update_vector_db env st d).state.db.figures,
        g ∈ st.db.figures ∨
          (g.paper_id = st.db.paper_seq ∧ g.figure_vector_id = none)) := by
  rw [update_eq_stored_path env st d hvalid hlock hdup]
  obtain ⟨hfigrows, ⟨tfig, htfig, hfigev⟩⟩ := figures_fold_spec
    st.db.paper_seq (d.figures.getD []) st.db.figures st.db.figure_seq
    [Ev.lockAcquired, Ev.insertPaper st.db.paper_seq (-1),
     Ev.addPaperVec st.db.paper_seq,
     Ev.backfillPaper st.db.paper_seq (st.db.paper_seq : Int),
     Ev.savePaperIndex true]
  cases hff : d.force_fields with
  | none =>
    rw [ingest_eq_store_noforce env st d hsp hff]
    simp only []
    refine ⟨tfig, [], ?_, hfigev, fun e he => absurd he
      (List.not_mem_nil e), hfigrows⟩
    rw [htfig]
    simp [List.append_assoc]
  | some ffs =>
    rw [ingest_eq_store env st d ffs hsp hsf hff]
    simp only []
    obtain ⟨te, hte, hforceev⟩ := force_fold_evs_mono env
      d.metadata.title d ffs
      { rows := st.db.force_fields, seq := st.db.force_seq,
        fidx := st.force_index,
        evs := (processFigures st.db.paper_seq (d.figures.getD [])
          (st.db.figures, st.db.figure_seq,
           [Ev.lockAcquired, Ev.insertPaper st.db.paper_seq (-1),
            Ev.addPaperVec st.db.paper_seq,
            Ev.backfillPaper st.db.paper_seq (st.db.paper_seq : Int),
            Ev.savePaperIndex true])).2.2 }
    refine ⟨tfig, te ++ [Ev.saveForceIndex true], ?_, hfigev, ?_,
      hfigrows⟩
    · rw [hte, htfig]
      simp [List.append_assoc]
    · intro e he
      rcases List.mem_append.1 he with he | he
      · exact Or.inl (hforceev e he)
      · rw [List.mem_singleton.1 he]
        exact Or.inr rfl

/-- Witness for C8: the sample ingest, with its figure inserted between
the paper phase and the force phase. -/
theorem C8_figures_then_forces_witness :
    is_valid_physics_data sampleData = true ∧
    env0.lock_ok = true ∧
    st0.db.papers.any (·.title = sampleData.metadata.title) = false ∧
    env0.save_paper_ok = true ∧ env0.save_force_ok = true ∧
    (∃ figEvs forceEvs,
      (update_vector_db env0 st0 sampleData).trace =
        [Ev.lockAcquired, Ev.insertPaper st0.db.paper_seq (-1),
         Ev.addPaperVec st0.db.paper_seq,
         Ev.backfillPaper st0.db.paper_seq (st0.db.paper_seq : Int),
         Ev.savePaperIndex true] ++ figEvs ++ forceEvs ++
          [Ev.commit, Ev.lockReleased] ∧
      (∀ e ∈ figEvs, ∃ i, e = Ev.insertFigure i st0.db.paper_seq) ∧
      (∀ e ∈ forceEvs, isForceEv e = true ∨ e = Ev.saveForceIndex true) ∧
      (∀ g ∈ (update_vector_db env0 st0 sampleData).state.db.figures,
        g ∈ st0.db.figures ∨
          (g.paper_id = st0.db.paper_seq ∧ g.figure_vector_id = none))) :=
  ⟨by decide, rfl, by decide, rfl, rfl,
   C8_figures_then_forces env0 st0 sampleData (by decide) rfl (by decide)
     rfl rfl⟩

/-! ## C10: rolled-back vectors linger in memory -/

/-- Every call only ever appends to the two in-memory indexes. -/
theorem update_index_mono (env : Env) (st : RagState) (d : StructuredData) :
    (∃ t, (update_vector_db env st d).state.paper_index =
      st.paper_index ++ t) ∧
    (∃ t, (update_vector_db env st d).state.force_index =
      st.force_index ++ t) := by
  by_cases hv : is_valid_physics_data d = true
  case neg =>
    have hv' : is_valid_physics_data d = false := by
      rwa [Bool.not_eq_true] at hv
    have heq : update_vector_db env st d =
        { outcome := Outcome.skippedInvalid, state := st, trace := [],
          ret := none } := by
      unfold update_vector_db
      simp [hv']
    rw [heq]
    exact ⟨⟨[], by simp⟩, ⟨[], by simp⟩⟩
  by_cases hl : env.lock_ok = true
  case neg =>
    have hl' : env.lock_ok = false := by
      rwa [Bool.not_eq_true] at hl
    have heq : update_vector_db env st d =
        { outcome := Outcome.errLock, state := st, trace := [],
          ret := none } := by
      unfold update_vector_db
      simp [hv, hl']
    rw [heq]
    exact ⟨⟨[], by simp⟩, ⟨[], by simp⟩⟩
  by_cases hd : st.db.papers.any (·.title = d.metadata.title) = true
  case pos =>
    have heq : update_vector_db env st d =
        { outcome := Outcome.skippedDuplicate, state := st,
          trace := [Ev.lockAcquired, Ev.lockReleased], ret := none } := by
      unfold update_vector_db
      simp [hv, hl, hd]
    rw [heq]
    exact ⟨⟨[], by simp⟩, ⟨[], by simp⟩⟩
  have hd' : st.db.papers.any (·.title = d.metadata.title) = false := by
    rwa [Bool.not_eq_true] at hd
  rw [update_eq_stored_path env st d hv hl hd']
  cases hsp : env.save_paper_ok with
  | false =>
    rw [ingest_eq_sp_fail env st d hsp]
    exact ⟨⟨_, rfl⟩, ⟨[], by simp⟩⟩
  | true =>
    cases hff : d.force_fields with
    | none =>
      rw [ingest_eq_store_noforce env st d hsp hff]
      exact ⟨⟨_, rfl⟩, ⟨[], by simp⟩⟩
    | some ffs =>
      obtain ⟨tf, htf⟩ := force_fold_fidx_mono env d.metadata.title d ffs
        { rows := st.db.force_fields, seq := st.db.force_seq,
          fidx := st.force_index,
          evs := (processFigures st.db.paper_seq (d.figures.getD [])
            (st.db.figures, st.db.figure_seq,
             [Ev.lockAcquired, Ev.insertPaper st.db.paper_seq (-1),
              Ev.addPaperVec st.db.paper_seq,
              Ev.backfillPaper st.db.paper_seq (st.db.paper_seq : Int),
              Ev.savePaperIndex true])).2.2 }
      cases hsf : env.save_force_ok with
      | false =>
        rw [ingest_eq_sf_fail env st d ffs hsp hsf hff]
        exact ⟨⟨_, rfl⟩, ⟨tf, htf⟩⟩
      | true =>
        rw [ingest_eq_store env st d ffs hsp hsf hff]
        exact ⟨⟨_, rfl⟩, ⟨tf, htf⟩⟩

/-- C10: `update_vector_db` never removes a vector from the in-memory
indexes; when the force-index save fails after the paper vector was added,
the metadata transaction is rolled back yet the vector stays in the
process's in-memory paper index under the rolled-back row's identifier,
and the retrieval join finds no metadata row for that identifier. -/
theorem C10_orphan_vector_after_rollback (env : Env) (st : RagState)
    (d : StructuredData) (ffs : List ForceField)
    (hvalid : is_valid_physics_data d = true)
    (hlock : env.lock_ok = true)
    (hdup : st.db.papers.any (·.title = d.metadata.title) = false)
    (hsp : env.save_paper_ok = true)
    (hsf : env.save_force_ok = false)
    (hff : d.force_fields = some ffs)
    (hfresh : ∀ p ∈ st.db.papers,
      p.vector_id ≠ (st.db.paper_seq : Int)) :
    (∀ (env' : Env) (st' : RagState) (d' : StructuredData),
      (∃ t, (update_vector_db env' st' d').state.paper_index =
        st'.paper_index ++ t) ∧
      (∃ t, (update_vector_db env' st' d').state.force_index =
        st'.force_index ++ t)) ∧
    (update_vector_db env st d).outcome =
      Outcome.errCaught "save_force_index" ∧
    (update_vector_db env st d).state.db = st.db ∧
    ((st.db.paper_seq : Int),
      (get_embedding env.embed (some (paper_embed_input d))).1.entries) ∈
      (update_vector_db env st d).state.paper_index ∧
    join_papers (update_vector_db env st d).state.db.papers
      [(st.db.paper_seq : Int)] = [] := by
  refine ⟨fun env' st' d' => update_index_mono env' st' d', ?_⟩
  rw [update_eq_stored_path env st d hvalid hlock hdup,
    ingest_eq_sf_fail env st d ffs hsp hsf hff]
  simp only []
  have hK : ¬((st.db.paper_seq : Int) = -1) := by omega
  have hfind : st.db.papers.find?
      (·.vector_id = (st.db.paper_seq : Int)) = none := by
    rw [List.find?_eq_none]
    intro p hp
    simpa using hfresh p hp
  refine ⟨trivial, trivial, List.mem_append_right _ (by simp), ?_⟩
  unfold join_papers
  rw [List.foldl_cons, List.foldl_nil]
  unfold join_paper_step
  rw [if_neg hK, hfind]

/-- Witness for C10: force-save failure on the sample ingest into the
empty store. -/
theorem C10_orphan_vector_after_rollback_witness :
    is_valid_physics_data sampleData = true ∧
    envForceSaveFail.save_paper_ok = true ∧
    envForceSaveFail.save_force_ok = false ∧
    sampleData.force_fields = some [sampleForce] ∧
    (update_vector_db envForceSaveFail st0 sampleData).state.db = st0.db ∧
    ((st0.db.paper_seq : Int),
      (get_embedding envForceSaveFail.embed
        (some (paper_embed_input sampleData))).1.entries) ∈
      (update_vector_db envForceSaveFail st0 sampleData).state.paper_index ∧
    join_papers (update_vector_db envForceSaveFail st0
        sampleData).state.db.papers [(st0.db.paper_seq : Int)] = [] :=
  ⟨by decide, rfl, rfl, by decide,
   (C10_orphan_vector_after_rollback envForceSaveFail st0 sampleData
     [sampleForce] (by decide) rfl (by decide) rfl rfl (by decide)
     (by decide)).2.2.1,
   (C10_orphan_vector_after_rollback envForceSaveFail st0 sampleData
     [sampleForce] (by decide) rfl (by decide) rfl rfl (by decide)
     (by decide)).2.2.2.1,
   (C10_orphan_vector_after_rollback envForceSaveFail st0 sampleData
     [sampleForce] (by decide) rfl (by decide) rfl rfl (by decide)
     (by decide)).2.2.2.2⟩

end PlasmaRAG
